import Mathlib

/-!
Verification of the QuidWise UK tax calculator (`src/tools/tax_calculator.py`
together with the pydantic models of `src/models/schemas.py`).

Monetary amounts and rates are modelled as exact rationals (`ℚ`).  The rate
configuration document `src/data/tax_rates_2025_26.json` is not part of the
source tree, so the concrete 2024/25 table (`defaultRates` below) is modelled
from the specification; every function operating on a table is parameterised
over an arbitrary `Rates` value mirroring the JSON shape of spec §6.
-/

/-- One income-tax band, mirroring an entry of
`rates["income_tax"]["bands"]`: keys `name`, `min`, `max` (`null` meaning
unbounded) and `rate`. -/
structure Band where
  name : String
  min : ℚ
  max : Option ℚ
  rate : ℚ

/-- `rates["national_insurance"]["class_1"]`. -/
structure NIRates where
  primary_threshold_annual : ℚ
  upper_earnings_limit : ℚ
  rate_between_thresholds : ℚ
  rate_above_uel : ℚ

/-- One student-loan entry: `{"threshold": .., "rate": ..}`. -/
structure SLRate where
  threshold : ℚ
  rate : ℚ

/-- `models.schemas.StudentLoanPlan` (a closed `str` enum). -/
inductive StudentLoanPlan
  | plan_1
  | plan_2
  | plan_4
  | plan_5
  | postgraduate
deriving DecidableEq

/-- `rates["student_loans"]`: the per-plan entries may be absent from the
document (the calculator then falls back to zero repayment), while the
`postgraduate` entry is accessed unconditionally by
`_calculate_postgraduate_loan` and is therefore required. -/
structure StudentLoans where
  plan_1 : Option SLRate
  plan_2 : Option SLRate
  plan_4 : Option SLRate
  plan_5 : Option SLRate
  postgraduate : SLRate

/-- `self.rates["student_loans"].get(plan.value)` for an enum member: the
dictionary lookup keyed by the plan's string value. -/
def StudentLoans.lookup (sl : StudentLoans) : StudentLoanPlan → Option SLRate
  | .plan_1 => sl.plan_1
  | .plan_2 => sl.plan_2
  | .plan_4 => sl.plan_4
  | .plan_5 => sl.plan_5
  | .postgraduate => some sl.postgraduate

/-- The whole rate table (`self.rates`), shaped as the configuration document
of spec §6. -/
structure Rates where
  personal_allowance : ℚ
  personal_allowance_taper_threshold : ℚ
  bands : List Band
  ni : NIRates
  student_loans : StudentLoans

/-- The tax-calculation input.  The fields and defaults are those declared by
`models.schemas.TaxInput` (including `dividend_income` and `rental_income`,
declared there with default `0.0`), plus `is_secondary_job`, which
`UKTaxCalculator.calculate` reads from its input and the test-suite passes
although `schemas.TaxInput` never declares it — see the field-name lists
`schemasTaxInputFields` / `calculateReadFields` below, which record that
mismatch explicitly. -/
structure TaxInput where
  gross_salary : ℚ
  student_loan_plan : Option StudentLoanPlan := none
  has_postgraduate_loan : Bool := false
  pension_contribution_percent : ℚ := 0
  salary_sacrifice_pension : Bool := false
  bonus : ℚ := 0
  dividend_income : ℚ := 0
  rental_income : ℚ := 0
  is_secondary_job : Bool := false

/-- `models.schemas.TaxBreakdown`. -/
structure TaxBreakdown where
  gross_income : ℚ
  taxable_income : ℚ
  personal_allowance_used : ℚ
  income_tax_basic : ℚ := 0
  income_tax_higher : ℚ := 0
  income_tax_additional : ℚ := 0
  total_income_tax : ℚ := 0
  ni_contributions : ℚ := 0
  student_loan_repayment : ℚ := 0
  postgraduate_loan_repayment : ℚ := 0
  pension_contribution : ℚ := 0
  pension_tax_relief : ℚ := 0
  total_deductions : ℚ := 0
  net_annual_income : ℚ := 0
  net_monthly_income : ℚ := 0
  effective_tax_rate : ℚ := 0
  marginal_tax_rate : ℚ := 0

/-- The validation errors raised by `UKTaxCalculator.calculate` (lines 20–25)
plus the `ValueError` raised by the `StudentLoanPlan(...)` enum conversion in
the `calculate_uk_tax` wrapper (line 287) when the given string is not a
member of the enum. -/
inductive TaxError
  | NegativeSalary
  | NegativeBonus
  | InvalidPensionPercent
  | InvalidPlanString (s : String)
deriving DecidableEq

/-- `band["max"] if band["max"] else float("inf")` (lines 141 and 232):
Python truthiness maps both `None` and `0` to the unbounded case, encoded
here as `none`. -/
def Band.effMax (b : Band) : Option ℚ :=
  match b.max with
  | none => none
  | some m => if m = 0 then none else some m

/-- `UKTaxCalculator._calculate_personal_allowance` (lines 119–128). -/
def calcPersonalAllowance (r : Rates) (gross : ℚ) : ℚ :=
  if gross ≤ r.personal_allowance_taper_threshold then r.personal_allowance
  else max 0 (r.personal_allowance - (gross - r.personal_allowance_taper_threshold) / 2)

/-- The band-walking loop of `UKTaxCalculator._calculate_income_tax`
(lines 137–153), threading `remaining` and the `(basic, higher, additional)`
accumulator; the loop breaks as soon as `remaining ≤ 0`. -/
def calcIncomeTaxAux : List Band → ℚ → ℚ × ℚ × ℚ → ℚ × ℚ × ℚ
  | [], _, acc => acc
  | b :: rest, remaining, (basic, higher, additional) =>
    if remaining ≤ 0 then (basic, higher, additional)
    else
      let taxable_in_band : ℚ :=
        match b.effMax with
        | none => remaining
        | some m => min remaining (m - b.min)
      let tax := taxable_in_band * b.rate
      let acc2 : ℚ × ℚ × ℚ :=
        if b.name = "Basic Rate" then (tax, higher, additional)
        else if b.name = "Higher Rate" then (basic, tax, additional)
        else if b.name = "Additional Rate" then (basic, higher, tax)
        else (basic, higher, additional)
      calcIncomeTaxAux rest (remaining - taxable_in_band) acc2

/-- `UKTaxCalculator._calculate_income_tax` (lines 130–155). -/
def calcIncomeTax (r : Rates) (taxable_income : ℚ) : ℚ × ℚ × ℚ :=
  calcIncomeTaxAux r.bands taxable_income (0, 0, 0)

/-- `UKTaxCalculator._calculate_ni` (lines 157–179). -/
def calcNI (r : Rates) (gross : ℚ) : ℚ :=
  let n := r.ni
  if gross ≤ n.primary_threshold_annual then 0
  else
    let ni_main := min gross n.upper_earnings_limit - n.primary_threshold_annual
    let ni_main_amount := ni_main * n.rate_between_thresholds
    let ni_upper_amount :=
      if n.upper_earnings_limit < gross then (gross - n.upper_earnings_limit) * n.rate_above_uel
      else 0
    ni_main_amount + ni_upper_amount

/-- `UKTaxCalculator._calculate_student_loan` (lines 181–200): absent plan,
or plan value missing from the table, yields zero. -/
def calcStudentLoan (r : Rates) (gross : ℚ) : Option StudentLoanPlan → ℚ
  | none => 0
  | some plan =>
    match r.student_loans.lookup plan with
    | none => 0
    | some plan_rates =>
      if gross ≤ plan_rates.threshold then 0
      else (gross - plan_rates.threshold) * plan_rates.rate

/-- `UKTaxCalculator._calculate_postgraduate_loan` (lines 202–211). -/
def calcPostgradLoan (r : Rates) (gross : ℚ) : ℚ :=
  let pg := r.student_loans.postgraduate
  if gross ≤ pg.threshold then 0
  else (gross - pg.threshold) * pg.rate

/-- The income-tax component of the marginal-rate loop (lines 230–238):
first band containing `next_taxable` wins (break); a band whose lower bound
is exceeded but whose cap is not met leaves its rate as the running value. -/
def marginalBandRate : List Band → ℚ → ℚ → ℚ
  | [], _, acc => acc
  | b :: rest, t, acc =>
    match b.effMax with
    | none => if b.min < t then b.rate else marginalBandRate rest t acc
    | some m =>
      if b.min < t ∧ t ≤ m then b.rate
      else if b.min < t then marginalBandRate rest t b.rate
      else marginalBandRate rest t acc

/-- `UKTaxCalculator._calculate_marginal_rate` (lines 213–269), evaluated at
`gross + 1`; note the hardcoded upper bound `125140` of the allowance-taper
override (line 244). -/
def calcMarginalRate (r : Rates) (gross : ℚ) (t : TaxInput) : ℚ :=
  let next_gross := gross + 1
  let next_taxable :=
    if t.is_secondary_job then next_gross
    else next_gross - calcPersonalAllowance r next_gross
  let income_tax_marginal := marginalBandRate r.bands next_taxable 0
  let income_tax_marginal :=
    if t.is_secondary_job = false ∧
        r.personal_allowance_taper_threshold < next_gross ∧ next_gross ≤ 125140 then
      (0.60 : ℚ)
    else income_tax_marginal
  let n := r.ni
  let ni_marginal :=
    if n.upper_earnings_limit < next_gross then n.rate_above_uel
    else if n.primary_threshold_annual < next_gross then n.rate_between_thresholds
    else 0
  let sl_marginal :=
    match t.student_loan_plan with
    | none => 0
    | some plan =>
      match r.student_loans.lookup plan with
      | none => 0
      | some plan_rates =>
        if plan_rates.threshold < next_gross then plan_rates.rate else 0
  let sl_marginal :=
    sl_marginal +
      (if t.has_postgraduate_loan then
        (if r.student_loans.postgraduate.threshold < next_gross then
          r.student_loans.postgraduate.rate
        else 0)
      else 0)
  (income_tax_marginal + ni_marginal + sl_marginal) * 100

/-- Python's `round(x, 2)` on the exact value: round half to even at two
decimal places. -/
def round2 (x : ℚ) : ℚ :=
  let y := x * 100
  let f : ℤ := ⌊y⌋
  let frac := y - f
  let n : ℤ :=
    if frac < 1 / 2 then f
    else if 1 / 2 < frac then f + 1
    else if f % 2 = 0 then f else f + 1
  (n : ℚ) / 100

/-- `self.rates["income_tax"]["bands"][0]["max"]` as read by the pension
relief computation (lines 67–81); the fallback `0` stands in for the crash a
malformed table would cause in Python (spec §6 makes such a table fatal at
startup, so no claim depends on the fallback). -/
def band0max (r : Rates) : ℚ :=
  ((r.bands.get? 0).bind Band.max).getD 0

/-- `self.rates["income_tax"]["bands"][1]["max"]` (line 75/79). -/
def band1max (r : Rates) : ℚ :=
  ((r.bands.get? 1).bind Band.max).getD 0

/-- `gross = tax_input.gross_salary + tax_input.bonus` (line 27). -/
def grossOf (t : TaxInput) : ℚ :=
  t.gross_salary + t.bonus

/-- `pension_contribution = gross * (pension_contribution_percent / 100)`
(line 30). -/
def pensionContributionOf (t : TaxInput) : ℚ :=
  grossOf t * (t.pension_contribution_percent / 100)

/-- `taxable_gross` (lines 32–36): salary sacrifice reduces gross before all
taxes. -/
def taxableGrossOf (t : TaxInput) : ℚ :=
  if t.salary_sacrifice_pension then grossOf t - pensionContributionOf t
  else grossOf t

/-- `personal_allowance` (lines 38–44): zero for a secondary job. -/
def personalAllowanceOf (r : Rates) (t : TaxInput) : ℚ :=
  if t.is_secondary_job then 0
  else calcPersonalAllowance r (taxableGrossOf t)

/-- `taxable_income` (lines 41 and 45). -/
def taxableIncomeOf (r : Rates) (t : TaxInput) : ℚ :=
  if t.is_secondary_job then taxableGrossOf t
  else max 0 (taxableGrossOf t - calcPersonalAllowance r (taxableGrossOf t))

/-- `pension_tax_relief` (lines 63–81). -/
def pensionTaxReliefOf (r : Rates) (t : TaxInput) : ℚ :=
  if t.salary_sacrifice_pension = false ∧ 0 < pensionContributionOf t then
    if band0max r < taxableIncomeOf r t then
      let higher_rate_portion :=
        min (pensionContributionOf t) (taxableIncomeOf r t - band0max r)
      let relief := higher_rate_portion * 0.20
      if band1max r < taxableIncomeOf r t then
        relief + min (pensionContributionOf t) (taxableIncomeOf r t - band1max r) * 0.05
      else relief
    else 0
  else 0

/-- `total_income_tax = basic + higher + additional` (line 49). -/
def totalIncomeTaxOf (r : Rates) (t : TaxInput) : ℚ :=
  (calcIncomeTax r (taxableIncomeOf r t)).1 +
    (calcIncomeTax r (taxableIncomeOf r t)).2.1 +
    (calcIncomeTax r (taxableIncomeOf r t)).2.2

/-- `student_loan` (lines 55–58). -/
def studentLoanOf (r : Rates) (t : TaxInput) : ℚ :=
  calcStudentLoan r (taxableGrossOf t) t.student_loan_plan

/-- `postgrad_loan` (lines 59–61). -/
def postgradLoanOf (r : Rates) (t : TaxInput) : ℚ :=
  if t.has_postgraduate_loan then calcPostgradLoan r (taxableGrossOf t) else 0

/-- `total_deductions` (lines 84–90). -/
def totalDeductionsOf (r : Rates) (t : TaxInput) : ℚ :=
  totalIncomeTaxOf r t + calcNI r (taxableGrossOf t) + studentLoanOf r t +
    postgradLoanOf r t +
    (if t.salary_sacrifice_pension then 0 else pensionContributionOf t)

/-- The breakdown assembled on lines 27–117, after validation has passed. -/
def computeBreakdown (r : Rates) (t : TaxInput) : TaxBreakdown :=
  { gross_income := grossOf t
    taxable_income := taxableIncomeOf r t
    personal_allowance_used := personalAllowanceOf r t
    income_tax_basic := (calcIncomeTax r (taxableIncomeOf r t)).1
    income_tax_higher := (calcIncomeTax r (taxableIncomeOf r t)).2.1
    income_tax_additional := (calcIncomeTax r (taxableIncomeOf r t)).2.2
    total_income_tax := totalIncomeTaxOf r t
    ni_contributions := calcNI r (taxableGrossOf t)
    student_loan_repayment := studentLoanOf r t
    postgraduate_loan_repayment := postgradLoanOf r t
    pension_contribution := pensionContributionOf t
    pension_tax_relief := pensionTaxReliefOf r t
    total_deductions := totalDeductionsOf r t
    net_annual_income := grossOf t - totalDeductionsOf r t
    net_monthly_income := (grossOf t - totalDeductionsOf r t) / 12
    effective_tax_rate :=
      round2 (if 0 < grossOf t then totalDeductionsOf r t / grossOf t * 100 else 0)
    marginal_tax_rate := round2 (calcMarginalRate r (taxableGrossOf t) t) }

/-- `UKTaxCalculator.calculate` (lines 17–117): the three validation checks of
lines 20–25 in order, then the arithmetic. -/
def UKTaxCalculator.calculate (r : Rates) (t : TaxInput) : Except TaxError TaxBreakdown :=
  if t.gross_salary < 0 then .error .NegativeSalary
  else if t.bonus < 0 then .error .NegativeBonus
  else if t.pension_contribution_percent < 0 ∨ 100 < t.pension_contribution_percent then
    .error .InvalidPensionPercent
  else .ok (computeBreakdown r t)

/-- The membership test performed by `StudentLoanPlan(student_loan_plan)`
(line 287): `some` for the five enum values, `none` (a `ValueError` in
Python) otherwise. -/
def toStudentLoanPlan : String → Option StudentLoanPlan
  | "plan_1" => some .plan_1
  | "plan_2" => some .plan_2
  | "plan_4" => some .plan_4
  | "plan_5" => some .plan_5
  | "postgraduate" => some .postgraduate
  | _ => none

/-- `calculate_uk_tax` (lines 273–300): converts the optional plan string
(`if student_loan_plan:` is false for both `None` and the empty string),
builds the `TaxInput` and delegates to `UKTaxCalculator.calculate`. -/
def calculate_uk_tax (r : Rates) (gross_salary : ℚ)
    (student_loan_plan : Option String := none)
    (has_postgraduate_loan : Bool := false)
    (pension_contribution_percent : ℚ := 0)
    (salary_sacrifice_pension : Bool := false)
    (bonus : ℚ := 0)
    (is_secondary_job : Bool := false) : Except TaxError TaxBreakdown :=
  let planned : Except TaxError (Option StudentLoanPlan) :=
    match student_loan_plan with
    | none => .ok none
    | some s =>
      if s = "" then .ok none
      else
        match toStudentLoanPlan s with
        | some p => .ok (some p)
        | none => .error (.InvalidPlanString s)
  match planned with
  | .error e => .error e
  | .ok plan =>
    UKTaxCalculator.calculate r
      { gross_salary := gross_salary
        student_loan_plan := plan
        has_postgraduate_loan := has_postgraduate_loan
        pension_contribution_percent := pension_contribution_percent
        salary_sacrifice_pension := salary_sacrifice_pension
        bonus := bonus
        is_secondary_job := is_secondary_job }

/-- Modelled from the spec: the 2024/25 rate table of
`src/data/tax_rates_2025_26.json`, which is absent from the source tree.
All values used by any claim are pinned by spec §8, §4 and the test-suite
(personal allowance 12570, taper threshold 100000, bands 20/40/45% with
boundaries 37700 and 125140, NI thresholds 12570/50270 at 8%/2%, plan_2
threshold 27295 at 9%, postgraduate threshold 21000 at 6%); the plan_1,
plan_4 and plan_5 entries, which no claim touches, carry the statutory
2024/25 figures. -/
def defaultRates : Rates :=
  { personal_allowance := 12570
    personal_allowance_taper_threshold := 100000
    bands :=
      [{ name := "Basic Rate", min := 0, max := some 37700, rate := 0.20 },
       { name := "Higher Rate", min := 37700, max := some 125140, rate := 0.40 },
       { name := "Additional Rate", min := 125140, max := none, rate := 0.45 }]
    ni :=
      { primary_threshold_annual := 12570
        upper_earnings_limit := 50270
        rate_between_thresholds := 0.08
        rate_above_uel := 0.02 }
    student_loans :=
      { plan_1 := some { threshold := 24990, rate := 0.09 }
        plan_2 := some { threshold := 27295, rate := 0.09 }
        plan_4 := some { threshold := 31395, rate := 0.09 }
        plan_5 := some { threshold := 25000, rate := 0.09 }
        postgraduate := { threshold := 21000, rate := 0.06 } } }

/-- The input is accepted by the validation of lines 20–25. -/
def ValidInput (t : TaxInput) : Prop :=
  0 ≤ t.gross_salary ∧ 0 ≤ t.bonus ∧
    0 ≤ t.pension_contribution_percent ∧ t.pension_contribution_percent ≤ 100

instance (t : TaxInput) : Decidable (ValidInput t) := by
  unfold ValidInput
  infer_instance

/-- The field names declared by `models.schemas.TaxInput` (schemas.py
lines 57–66), in declaration order. -/
def schemasTaxInputFields : List String :=
  ["gross_salary", "student_loan_plan", "has_postgraduate_loan",
   "pension_contribution_percent", "salary_sacrifice_pension", "bonus",
   "dividend_income", "rental_income"]

/-- The `TaxInput` field list of spec §3. -/
def specTaxInputFields : List String :=
  ["gross_salary", "bonus", "student_loan_plan", "has_postgraduate_loan",
   "pension_contribution_percent", "salary_sacrifice_pension",
   "is_secondary_job"]

/-- The attributes `UKTaxCalculator.calculate` reads from its `tax_input`
argument (tax_calculator.py lines 20, 22, 24, 27, 30, 32, 39, 57, 61 and,
via `_calculate_marginal_rate`, 221, 242, 259, 264). -/
def calculateReadFields : List String :=
  ["gross_salary", "bonus", "pension_contribution_percent",
   "salary_sacrifice_pension", "student_loan_plan", "has_postgraduate_loan",
   "is_secondary_job"]

lemma calculate_ok_iff (r : Rates) (t : TaxInput) (b : TaxBreakdown) :
    UKTaxCalculator.calculate r t = Except.ok b ↔
      ValidInput t ∧ b = computeBreakdown r t := by
  unfold UKTaxCalculator.calculate ValidInput
  split_ifs with h1 h2 h3
  · constructor
    · intro h
      exact absurd h (by simp)
    · rintro ⟨⟨hg, -, -, -⟩, -⟩
      exact absurd h1 (not_lt.mpr hg)
  · constructor
    · intro h
      exact absurd h (by simp)
    · rintro ⟨⟨-, hb, -, -⟩, -⟩
      exact absurd h2 (not_lt.mpr hb)
  · constructor
    · intro h
      exact absurd h (by simp)
    · rintro ⟨⟨-, -, hp, hq⟩, -⟩
      rcases h3 with h | h
      · exact absurd h (not_lt.mpr hp)
      · exact absurd h (not_lt.mpr hq)
  · push_neg at h3
    simp only [Except.ok.injEq]
    constructor
    · intro hb
      exact ⟨⟨not_lt.mp h1, not_lt.mp h2, h3.1, h3.2⟩, hb.symm⟩
    · rintro ⟨-, hb⟩
      exact hb.symm

/-- **C1.** The input schema is out of step with the calculator and the spec:
`is_secondary_job`, which `UKTaxCalculator.calculate` reads from its input,
is not among the fields `models.schemas.TaxInput` declares, while
`dividend_income` and `rental_income` are declared there although the closed
field list of spec §3 excludes them. -/
theorem c1_taxinput_field_mismatch :
    "is_secondary_job" ∈ calculateReadFields ∧
      "is_secondary_job" ∉ schemasTaxInputFields ∧
      "dividend_income" ∈ schemasTaxInputFields ∧
      "dividend_income" ∉ specTaxInputFields ∧
      "rental_income" ∈ schemasTaxInputFields ∧
      "rental_income" ∉ specTaxInputFields := by
  refine ⟨?_, ?_, ?_, ?_, ?_, ?_⟩ <;> decide

/-- **C2.** For every rate table and every input accepted by validation, the
breakdown satisfies both conservation equations exactly: the deductions sum
(including the pension contribution exactly when it is not salary
sacrificed), and `net_annual_income + total_deductions = gross_income`. -/
theorem c2_conservation (r : Rates) (t : TaxInput) (b : TaxBreakdown)
    (h : UKTaxCalculator.calculate r t = Except.ok b) :
    b.total_deductions =
      b.total_income_tax + b.ni_contributions + b.student_loan_repayment +
        b.postgraduate_loan_repayment +
        (if t.salary_sacrifice_pension then 0 else b.pension_contribution) ∧
      b.net_annual_income + b.total_deductions = b.gross_income := by
  obtain ⟨-, rfl⟩ := (calculate_ok_iff r t b).1 h
  constructor
  · simp only [computeBreakdown, totalDeductionsOf]
  · simp only [computeBreakdown]
    ring

/-- Witness for C2 at gross salary 50000 under the default table. -/
theorem c2_conservation_witness :
    (computeBreakdown defaultRates { gross_salary := 50000 }).total_deductions =
      (computeBreakdown defaultRates { gross_salary := 50000 }).total_income_tax +
        (computeBreakdown defaultRates { gross_salary := 50000 }).ni_contributions +
        (computeBreakdown defaultRates { gross_salary := 50000 }).student_loan_repayment +
        (computeBreakdown defaultRates { gross_salary := 50000 }).postgraduate_loan_repayment +
        (if ({ gross_salary := 50000 } : TaxInput).salary_sacrifice_pension then 0
         else (computeBreakdown defaultRates { gross_salary := 50000 }).pension_contribution) ∧
      (computeBreakdown defaultRates { gross_salary := 50000 }).net_annual_income +
          (computeBreakdown defaultRates { gross_salary := 50000 }).total_deductions =
        (computeBreakdown defaultRates { gross_salary := 50000 }).gross_income :=
  c2_conservation defaultRates { gross_salary := 50000 } _
    ((calculate_ok_iff _ _ _).2 ⟨by norm_num [ValidInput], rfl⟩)

/-- **C5** (the code fails it).  The three validation checks themselves are
implemented as claimed, but the claim's final conjunct — no error of any kind
once they pass — is false of the shipped program: `ValidInput` holds at
gross 50000 and the embedded calculator (which necessarily models
`is_secondary_job` as an input field) completes to a breakdown, yet
`is_secondary_job` is among the attributes `calculate` reads while not among
the fields `models.schemas.TaxInput` declares, so on the real pydantic input
the attribute access at tax_calculator.py line 39 raises `AttributeError`
after validation has passed. -/
theorem c5_no_error_refuted :
    ValidInput { gross_salary := 50000 } ∧
      UKTaxCalculator.calculate defaultRates { gross_salary := 50000 } =
        Except.ok (computeBreakdown defaultRates { gross_salary := 50000 }) ∧
      "is_secondary_job" ∈ calculateReadFields ∧
      "is_secondary_job" ∉ schemasTaxInputFields :=
  ⟨by norm_num [ValidInput],
    (calculate_ok_iff _ _ _).2 ⟨by norm_num [ValidInput], rfl⟩,
    by decide, by decide⟩

/-- **C10.** `dividend_income` and `rental_income` never influence the result:
two inputs equal in every other field produce identical outcomes under every
rate table. -/
theorem c10_dividend_rental_noninterference (r : Rates) (t1 t2 : TaxInput)
    (h1 : t1.gross_salary = t2.gross_salary)
    (h2 : t1.student_loan_plan = t2.student_loan_plan)
    (h3 : t1.has_postgraduate_loan = t2.has_postgraduate_loan)
    (h4 : t1.pension_contribution_percent = t2.pension_contribution_percent)
    (h5 : t1.salary_sacrifice_pension = t2.salary_sacrifice_pension)
    (h6 : t1.bonus = t2.bonus)
    (h7 : t1.is_secondary_job = t2.is_secondary_job) :
    UKTaxCalculator.calculate r t1 = UKTaxCalculator.calculate r t2 := by
  cases t1
  cases t2
  simp only at h1 h2 h3 h4 h5 h6 h7
  subst h1 h2 h3 h4 h5 h6 h7
  rfl

/-- Witness for C10: changing only the two unused schema fields leaves the
whole breakdown unchanged. -/
theorem c10_noninterference_witness :
    UKTaxCalculator.calculate defaultRates
        { gross_salary := 50000, dividend_income := 7500, rental_income := 12000 } =
      UKTaxCalculator.calculate defaultRates { gross_salary := 50000 } :=
  c10_dividend_rental_noninterference defaultRates _ _ rfl rfl rfl rfl rfl rfl rfl

/-- A table whose `plan_2` entry is missing, for exercising the defensive
fallback of `_calculate_student_loan`. -/
def noPlan2Rates : Rates :=
  { defaultRates with
      student_loans := { defaultRates.student_loans with plan_2 := none } }

/-- **C9, counterexample.** At the public `calculate_uk_tax` wrapper an
unrecognized plan string does NOT yield a zero-repayment breakdown: the
`StudentLoanPlan(...)` conversion fails (a `ValueError` in Python) before the
calculator, with its defensive default, is ever reached. -/
theorem c9_counterexample :
    calculate_uk_tax defaultRates 50000 (some "plan_3") =
      Except.error (TaxError.InvalidPlanString "plan_3") := rfl

/-- **C9, amended.** Inside the calculator an absent plan, or a plan whose
identifier the rate table does not recognize, yields a zero student-loan
repayment without error; the `calculate_uk_tax` wrapper, however, rejects any
non-empty plan string that is not a member of the `StudentLoanPlan` enum
before the calculation starts. -/
theorem c9_unrecognized_plan_amended :
    (∀ (r : Rates) (t : TaxInput) (b : TaxBreakdown),
        UKTaxCalculator.calculate r t = Except.ok b →
        (t.student_loan_plan = none ∨
          ∃ p, t.student_loan_plan = some p ∧ r.student_loans.lookup p = none) →
        b.student_loan_repayment = 0) ∧
      (∀ (r : Rates) (g : ℚ) (s : String),
        toStudentLoanPlan s = none → s ≠ "" →
        calculate_uk_tax r g (some s) =
          Except.error (TaxError.InvalidPlanString s)) := by
  constructor
  · intro r t b h hp
    obtain ⟨-, rfl⟩ := (calculate_ok_iff r t b).1 h
    simp only [computeBreakdown, studentLoanOf]
    rcases hp with hnone | ⟨p, hsome, hlook⟩
    · rw [hnone]
      rfl
    · rw [hsome]
      simp only [calcStudentLoan, hlook]
  · intro r g s hs hne
    simp only [calculate_uk_tax, if_neg hne, hs]

/-- Witness for the amended C9: a table lacking `plan_2` yields zero
repayment for a `plan_2` borrower, and the wrapper rejects the string
`"plan_3"`. -/
theorem c9_unrecognized_plan_witness :
    (computeBreakdown noPlan2Rates
        { gross_salary := 50000, student_loan_plan := some .plan_2 }).student_loan_repayment = 0 ∧
      calculate_uk_tax noPlan2Rates 50000 (some "plan_9") =
        Except.error (TaxError.InvalidPlanString "plan_9") :=
  ⟨c9_unrecognized_plan_amended.1 noPlan2Rates
      { gross_salary := 50000, student_loan_plan := some .plan_2 } _
      ((calculate_ok_iff _ _ _).2 ⟨by norm_num [ValidInput], rfl⟩)
      (Or.inr ⟨.plan_2, rfl, rfl⟩),
    c9_unrecognized_plan_amended.2 noPlan2Rates 50000 "plan_9" rfl (by decide)⟩

/-- Follows the spec's words for claim C4 (spec §4.7 step 3): identical to
`calcMarginalRate` except that the taper override's upper bound is derived
from the table as `taper_threshold + 2 × base_allowance` instead of the
source's hardcoded `125140`. -/
def calcMarginalRateSpecTaperBound (r : Rates) (gross : ℚ) (t : TaxInput) : ℚ :=
  let next_gross := gross + 1
  let next_taxable :=
    if t.is_secondary_job then next_gross
    else next_gross - calcPersonalAllowance r next_gross
  let income_tax_marginal := marginalBandRate r.bands next_taxable 0
  let income_tax_marginal :=
    if t.is_secondary_job = false ∧
        r.personal_allowance_taper_threshold < next_gross ∧
        next_gross ≤ r.personal_allowance_taper_threshold + 2 * r.personal_allowance then
      (0.60 : ℚ)
    else income_tax_marginal
  let n := r.ni
  let ni_marginal :=
    if n.upper_earnings_limit < next_gross then n.rate_above_uel
    else if n.primary_threshold_annual < next_gross then n.rate_between_thresholds
    else 0
  let sl_marginal :=
    match t.student_loan_plan with
    | none => 0
    | some plan =>
      match r.student_loans.lookup plan with
      | none => 0
      | some plan_rates =>
        if plan_rates.threshold < next_gross then plan_rates.rate else 0
  let sl_marginal :=
    sl_marginal +
      (if t.has_postgraduate_loan then
        (if r.student_loans.postgraduate.threshold < next_gross then
          r.student_loans.postgraduate.rate
        else 0)
      else 0)
  (income_tax_marginal + ni_marginal + sl_marginal) * 100

/-- A table with a smaller personal allowance (10000), under which the
algebraic taper endpoint `100000 + 2×10000 = 120000` no longer coincides
with the hardcoded `125140`. -/
def taperRates : Rates :=
  { defaultRates with personal_allowance := 10000 }

/-- **C4, counterexample.** Under `taperRates` at gross 124999 the simulator
applies the 60% override (`gross+1 = 125000 ≤ 125140`, the hardcoded bound)
and reports 62%, although `gross+1` is beyond the spec's derived endpoint
`taper_threshold + 2×base_allowance = 120000`, where the claim says the
override must not apply (the derived-bound simulation reports 42%). -/
theorem c4_counterexample :
    calcMarginalRate taperRates 124999 { gross_salary := 124999 } = 62 ∧
      calcMarginalRateSpecTaperBound taperRates 124999 { gross_salary := 124999 } = 42 := by
  constructor <;>
    norm_num [calcMarginalRate, calcMarginalRateSpecTaperBound, taperRates,
      defaultRates, calcPersonalAllowance, marginalBandRate, Band.effMax, max_def]

/-- **C4, amended.** The override's upper bound is the hardcoded constant
`125140`, so the simulator agrees with the spec's table-derived rule exactly
on tables satisfying `taper_threshold + 2×base_allowance = 125140` (the
default table does); for a secondary-job filer the override is never taken
and the two simulations agree under every table. -/
theorem c4_taper_override_amended (r : Rates) (gross : ℚ) (t : TaxInput)
    (h : r.personal_allowance_taper_threshold + 2 * r.personal_allowance = 125140 ∨
        t.is_secondary_job = true) :
    calcMarginalRate r gross t = calcMarginalRateSpecTaperBound r gross t := by
  unfold calcMarginalRate calcMarginalRateSpecTaperBound
  rcases h with hid | hsec
  · rw [hid]
  · simp [hsec]

/-- Witness for the amended C4 at the default table (whose taper data
satisfies the identity) and gross 110000. -/
theorem c4_taper_override_witness :
    calcMarginalRate defaultRates 110000 { gross_salary := 110000 } =
      calcMarginalRateSpecTaperBound defaultRates 110000 { gross_salary := 110000 } :=
  c4_taper_override_amended defaultRates 110000 _ (Or.inl (by norm_num [defaultRates]))

lemma round2_int (n : ℤ) : round2 (n : ℚ) = (n : ℚ) := by
  unfold round2
  dsimp only
  have h100 : ((n : ℚ) * 100) = ((n * 100 : ℤ) : ℚ) := by
    push_cast
    ring
  rw [h100, Int.floor_intCast, sub_self]
  norm_num

/-- **C3.** Marginal rates reported under the default 2024/25 table:
28% at gross 30000, 42% at 60000 and at 99999, 62% at 100000 (the 60% trap),
47% at 125140, and 42% for a secondary-job filer at 110000. -/
theorem c3_marginal_rate_boundaries :
    (UKTaxCalculator.calculate defaultRates { gross_salary := 30000 }).map
        TaxBreakdown.marginal_tax_rate = Except.ok 28 ∧
      (UKTaxCalculator.calculate defaultRates { gross_salary := 60000 }).map
        TaxBreakdown.marginal_tax_rate = Except.ok 42 ∧
      (UKTaxCalculator.calculate defaultRates { gross_salary := 99999 }).map
        TaxBreakdown.marginal_tax_rate = Except.ok 42 ∧
      (UKTaxCalculator.calculate defaultRates { gross_salary := 100000 }).map
        TaxBreakdown.marginal_tax_rate = Except.ok 62 ∧
      (UKTaxCalculator.calculate defaultRates { gross_salary := 125140 }).map
        TaxBreakdown.marginal_tax_rate = Except.ok 47 ∧
      (UKTaxCalculator.calculate defaultRates
          { gross_salary := 110000, is_secondary_job := true }).map
        TaxBreakdown.marginal_tax_rate = Except.ok 42 := by
  refine ⟨?_, ?_, ?_, ?_, ?_, ?_⟩ <;>
  · rw [(calculate_ok_iff defaultRates _ _).2 ⟨by norm_num [ValidInput], rfl⟩]
    simp only [Except.map, Except.ok.injEq, computeBreakdown]
    norm_num [calcMarginalRate, taxableGrossOf, grossOf, pensionContributionOf,
      calcPersonalAllowance, marginalBandRate, defaultRates, Band.effMax, max_def,
      round2, StudentLoans.lookup]

lemma incomeTax_default_closed (x : ℚ) (hx : 0 ≤ x) :
    (calcIncomeTax defaultRates x).1 + (calcIncomeTax defaultRates x).2.1 +
      (calcIncomeTax defaultRates x).2.2 =
      0.20 * min x 37700 + 0.40 * max 0 (min (x - 37700) 87440) +
        0.45 * max 0 (x - 125140) := by
  rcases eq_or_lt_of_le hx with h0 | h0
  · rw [← h0]
    norm_num [calcIncomeTax, defaultRates, calcIncomeTaxAux, min_def, max_def]
  · have hx0 : ¬ x ≤ 0 := not_le.mpr h0
    simp only [calcIncomeTax, defaultRates, calcIncomeTaxAux, Band.effMax, hx0]
    norm_num
    rcases le_or_lt x 37700 with h1 | h1
    · simp only [h1, if_true, Prod.fst_zero, Prod.snd_zero]
      rw [min_eq_left h1, min_eq_left (by linarith : x - 37700 ≤ (87440 : ℚ)),
        max_eq_left (by linarith : x - 37700 ≤ (0 : ℚ)),
        max_eq_left (by linarith : x - 125140 ≤ (0 : ℚ))]
      ring
    · have c1 : ¬ x ≤ (37700 : ℚ) := not_le.mpr h1
      rw [min_eq_right h1.le]
      rcases le_or_lt x 125140 with h2 | h2
      · have c2 : x ≤ 87440 + (37700 : ℚ) := by linarith
        simp only [c1, c2, if_true, if_false, Prod.fst_zero, Prod.snd_zero]
        rw [min_eq_left (by linarith : x - 37700 ≤ (87440 : ℚ)),
          max_eq_right (by linarith : (0 : ℚ) ≤ x - 37700),
          max_eq_left (by linarith : x - 125140 ≤ (0 : ℚ))]
        ring
      · have c2 : ¬ x ≤ 87440 + (37700 : ℚ) := by
          intro hle
          linarith
        simp only [c1, c2, if_true, if_false, Prod.fst_zero, Prod.snd_zero,
          (by decide : ¬ ("Additional Rate" = "Basic Rate")),
          (by decide : ¬ ("Additional Rate" = "Higher Rate"))]
        rw [min_eq_right (by linarith : (87440 : ℚ) ≤ x - 37700),
          max_eq_right (by norm_num : (0 : ℚ) ≤ (87440 : ℚ)),
          max_eq_right (by linarith : (0 : ℚ) ≤ x - 125140)]
        ring

lemma incomeTaxTotal_default_mono {x y : ℚ} (hx : 0 ≤ x) (hxy : x ≤ y) :
    (calcIncomeTax defaultRates x).1 + (calcIncomeTax defaultRates x).2.1 +
        (calcIncomeTax defaultRates x).2.2 ≤
      (calcIncomeTax defaultRates y).1 + (calcIncomeTax defaultRates y).2.1 +
        (calcIncomeTax defaultRates y).2.2 := by
  rw [incomeTax_default_closed x hx, incomeTax_default_closed y (hx.trans hxy)]
  have m1 : min x 37700 ≤ min y 37700 := min_le_min hxy le_rfl
  have m2 : max 0 (min (x - 37700) 87440) ≤ max 0 (min (y - 37700) 87440) :=
    max_le_max le_rfl (min_le_min (by linarith) le_rfl)
  have m3 : max 0 (x - 125140) ≤ max 0 (y - 125140) :=
    max_le_max le_rfl (by linarith)
  have k1 := mul_le_mul_of_nonneg_left m1 (by norm_num : (0 : ℚ) ≤ 0.20)
  have k2 := mul_le_mul_of_nonneg_left m2 (by norm_num : (0 : ℚ) ≤ 0.40)
  have k3 := mul_le_mul_of_nonneg_left m3 (by norm_num : (0 : ℚ) ≤ 0.45)
  linarith

lemma hinge_mono {thr rate g1 g2 : ℚ} (hr : 0 ≤ rate) (h : g1 ≤ g2) :
    (if g1 ≤ thr then 0 else (g1 - thr) * rate) ≤
      (if g2 ≤ thr then 0 else (g2 - thr) * rate) := by
  rcases le_or_lt g1 thr with a | a <;> rcases le_or_lt g2 thr with b | b
  · rw [if_pos a, if_pos b]
  · rw [if_pos a, if_neg (not_le.mpr b)]
    exact mul_nonneg (by linarith) hr
  · exact absurd (h.trans b) (not_le.mpr a)
  · rw [if_neg (not_le.mpr a), if_neg (not_le.mpr b)]
    exact mul_le_mul_of_nonneg_right (by linarith) hr

lemma calcNI_default_closed (g : ℚ) :
    calcNI defaultRates g =
      0.08 * max 0 (min g 50270 - 12570) + 0.02 * max 0 (g - 50270) := by
  simp only [calcNI, defaultRates]
  rcases le_or_lt g 12570 with h1 | h1
  · rw [if_pos h1, min_eq_left (by linarith : g ≤ (50270 : ℚ)),
      max_eq_left (by linarith : g - 12570 ≤ (0 : ℚ)),
      max_eq_left (by linarith : g - 50270 ≤ (0 : ℚ))]
    ring
  · rw [if_neg (not_le.mpr h1)]
    rcases le_or_lt g 50270 with h2 | h2
    · rw [if_neg (not_lt.mpr h2), min_eq_left h2,
        max_eq_right (by linarith : (0 : ℚ) ≤ g - 12570),
        max_eq_left (by linarith : g - 50270 ≤ (0 : ℚ))]
      ring
    · rw [if_pos h2, min_eq_right h2.le,
        max_eq_right (by norm_num : (0 : ℚ) ≤ (50270 : ℚ) - 12570),
        max_eq_right (by linarith : (0 : ℚ) ≤ g - 50270)]
      ring

lemma calcNI_default_mono {g1 g2 : ℚ} (h : g1 ≤ g2) :
    calcNI defaultRates g1 ≤ calcNI defaultRates g2 := by
  rw [calcNI_default_closed, calcNI_default_closed]
  have m0 : min g1 50270 ≤ min g2 50270 := min_le_min h le_rfl
  have m1 : max 0 (min g1 50270 - 12570) ≤ max 0 (min g2 50270 - 12570) :=
    max_le_max le_rfl (by linarith)
  have m2 : max 0 (g1 - 50270) ≤ max 0 (g2 - 50270) :=
    max_le_max le_rfl (by linarith)
  have k1 := mul_le_mul_of_nonneg_left m1 (by norm_num : (0 : ℚ) ≤ 0.08)
  have k2 := mul_le_mul_of_nonneg_left m2 (by norm_num : (0 : ℚ) ≤ 0.02)
  linarith

lemma pa_shift_mono (r : Rates) (hbase : 0 ≤ r.personal_allowance)
    {g1 g2 : ℚ} (h : g1 ≤ g2) :
    g1 - calcPersonalAllowance r g1 ≤ g2 - calcPersonalAllowance r g2 := by
  unfold calcPersonalAllowance
  rcases le_or_lt g1 r.personal_allowance_taper_threshold with a | a <;>
    rcases le_or_lt g2 r.personal_allowance_taper_threshold with b | b
  · rw [if_pos a, if_pos b]
    linarith
  · rw [if_pos a, if_neg (not_le.mpr b)]
    have hm : max 0 (r.personal_allowance -
        (g2 - r.personal_allowance_taper_threshold) / 2) ≤ r.personal_allowance :=
      max_le hbase (by linarith)
    linarith
  · exact absurd (h.trans b) (not_le.mpr a)
  · rw [if_neg (not_le.mpr a), if_neg (not_le.mpr b)]
    have hm : max 0 (r.personal_allowance -
          (g2 - r.personal_allowance_taper_threshold) / 2) ≤
        max 0 (r.personal_allowance -
          (g1 - r.personal_allowance_taper_threshold) / 2) :=
      max_le_max le_rfl (by linarith)
    linarith

lemma studentLoan_default_mono (plan : Option StudentLoanPlan) {g1 g2 : ℚ}
    (h : g1 ≤ g2) :
    calcStudentLoan defaultRates g1 plan ≤ calcStudentLoan defaultRates g2 plan := by
  cases plan with
  | none => simp [calcStudentLoan]
  | some p =>
    cases p <;>
    · simp only [calcStudentLoan, StudentLoans.lookup, defaultRates]
      exact hinge_mono (by norm_num) h

lemma postgrad_default_mono {g1 g2 : ℚ} (h : g1 ≤ g2) :
    calcPostgradLoan defaultRates g1 ≤ calcPostgradLoan defaultRates g2 := by
  simp only [calcPostgradLoan, defaultRates]
  exact hinge_mono (by norm_num) h

/-- **C7.** Under the default table, for two accepted inputs identical in
every field but `gross_salary`, the larger gross salary never yields smaller
total deductions. -/
theorem c7_total_deductions_monotone (t1 t2 : TaxInput) (b1 b2 : TaxBreakdown)
    (hsl : t1.student_loan_plan = t2.student_loan_plan)
    (hpg : t1.has_postgraduate_loan = t2.has_postgraduate_loan)
    (hpct : t1.pension_contribution_percent = t2.pension_contribution_percent)
    (hsac : t1.salary_sacrifice_pension = t2.salary_sacrifice_pension)
    (hbonus : t1.bonus = t2.bonus)
    (hdiv : t1.dividend_income = t2.dividend_income)
    (hrent : t1.rental_income = t2.rental_income)
    (hsec : t1.is_secondary_job = t2.is_secondary_job)
    (hg : t1.gross_salary ≤ t2.gross_salary)
    (h1 : UKTaxCalculator.calculate defaultRates t1 = Except.ok b1)
    (h2 : UKTaxCalculator.calculate defaultRates t2 = Except.ok b2) :
    b1.total_deductions ≤ b2.total_deductions := by
  obtain ⟨⟨hs1, hb1, hp1, hq1⟩, rfl⟩ := (calculate_ok_iff _ _ _).1 h1
  obtain ⟨⟨hs2, hb2, hp2, hq2⟩, rfl⟩ := (calculate_ok_iff _ _ _).1 h2
  simp only [computeBreakdown]
  have hG : grossOf t1 ≤ grossOf t2 := by
    unfold grossOf
    rw [hbonus]
    linarith
  have hG0 : 0 ≤ grossOf t1 := by
    unfold grossOf
    linarith
  have hfac : (0 : ℚ) ≤ 1 - t2.pension_contribution_percent / 100 := by
    have : t2.pension_contribution_percent / 100 ≤ 1 := by
      rw [div_le_one (by norm_num : (0 : ℚ) < 100)]
      exact hq2
    linarith
  have hPC : pensionContributionOf t1 ≤ pensionContributionOf t2 := by
    unfold pensionContributionOf
    rw [hpct]
    exact mul_le_mul_of_nonneg_right hG (div_nonneg hp2 (by norm_num))
  have hPC0 : 0 ≤ pensionContributionOf t1 := by
    unfold pensionContributionOf
    exact mul_nonneg hG0 (div_nonneg hp1 (by norm_num))
  have hTG : taxableGrossOf t1 ≤ taxableGrossOf t2 := by
    unfold taxableGrossOf
    rw [hsac]
    by_cases hs : t2.salary_sacrifice_pension
    · simp only [hs, if_true]
      unfold pensionContributionOf grossOf
      rw [hpct, hbonus]
      have key :=
        mul_le_mul_of_nonneg_right
          (show t1.gross_salary + t2.bonus ≤ t2.gross_salary + t2.bonus by linarith) hfac
      nlinarith [key]
    · simp only [hs, if_false]
      exact hG
  have hTG0 : 0 ≤ taxableGrossOf t1 := by
    unfold taxableGrossOf
    by_cases hs : t1.salary_sacrifice_pension
    · simp only [hs, if_true]
      unfold pensionContributionOf
      have hfac1 : (0 : ℚ) ≤ 1 - t1.pension_contribution_percent / 100 := by
        rw [hpct]
        exact hfac
      nlinarith [mul_nonneg hG0 hfac1]
    · simp only [hs, if_false]
      exact hG0
  have hTI : taxableIncomeOf defaultRates t1 ≤ taxableIncomeOf defaultRates t2 := by
    unfold taxableIncomeOf
    rw [hsec]
    by_cases hj : t2.is_secondary_job
    · simp only [hj, if_true]
      exact hTG
    · simp only [hj, if_false]
      exact max_le_max le_rfl (pa_shift_mono defaultRates (by norm_num [defaultRates]) hTG)
  have hTI0 : 0 ≤ taxableIncomeOf defaultRates t1 := by
    unfold taxableIncomeOf
    by_cases hj : t1.is_secondary_job
    · simp only [hj, if_true]
      exact hTG0
    · simp only [hj, if_false]
      exact le_max_left 0 _
  have hTax : totalIncomeTaxOf defaultRates t1 ≤ totalIncomeTaxOf defaultRates t2 := by
    unfold totalIncomeTaxOf
    exact incomeTaxTotal_default_mono hTI0 hTI
  have hNI := calcNI_default_mono hTG
  have hSL : studentLoanOf defaultRates t1 ≤ studentLoanOf defaultRates t2 := by
    unfold studentLoanOf
    rw [hsl]
    exact studentLoan_default_mono _ hTG
  have hPG : postgradLoanOf defaultRates t1 ≤ postgradLoanOf defaultRates t2 := by
    unfold postgradLoanOf
    rw [hpg]
    by_cases hp : t2.has_postgraduate_loan
    · simp only [hp, if_true]
      exact postgrad_default_mono hTG
    · simp [hp]
  have hPen : (if t1.salary_sacrifice_pension then 0 else pensionContributionOf t1) ≤
      (if t2.salary_sacrifice_pension then 0 else pensionContributionOf t2) := by
    rw [hsac]
    by_cases hs : t2.salary_sacrifice_pension
    · simp [hs]
    · simp only [hs, if_false]
      exact hPC
  unfold totalDeductionsOf
  linarith

/-- Witness for C7: gross 40000 versus 90000 with a plan-2 loan and a 5%
pension contribution. -/
theorem c7_total_deductions_witness :
    (computeBreakdown defaultRates
        { gross_salary := 40000, student_loan_plan := some .plan_2,
          pension_contribution_percent := 5 }).total_deductions ≤
      (computeBreakdown defaultRates
        { gross_salary := 90000, student_loan_plan := some .plan_2,
          pension_contribution_percent := 5 }).total_deductions :=
  c7_total_deductions_monotone
    { gross_salary := 40000, student_loan_plan := some .plan_2,
      pension_contribution_percent := 5 }
    { gross_salary := 90000, student_loan_plan := some .plan_2,
      pension_contribution_percent := 5 } _ _ rfl rfl rfl rfl rfl rfl rfl rfl (by norm_num)
    ((calculate_ok_iff _ _ _).2 ⟨by norm_num [ValidInput], rfl⟩)
    ((calculate_ok_iff _ _ _).2 ⟨by norm_num [ValidInput], rfl⟩)

/-- **C8.** Under the default table, with all other fields equal, running the
same contribution percentage through salary sacrifice never increases income
tax or NI and never decreases net annual income, compared to the
non-sacrificed run. -/
theorem c8_salary_sacrifice_comparison (t : TaxInput) (bs bn : TaxBreakdown)
    (hks : UKTaxCalculator.calculate defaultRates
        { t with salary_sacrifice_pension := true } = Except.ok bs)
    (hkn : UKTaxCalculator.calculate defaultRates
        { t with salary_sacrifice_pension := false } = Except.ok bn) :
    bs.total_income_tax ≤ bn.total_income_tax ∧
      bs.ni_contributions ≤ bn.ni_contributions ∧
      bn.net_annual_income ≤ bs.net_annual_income := by
  obtain ⟨⟨hs1, hb1, hp1, hq1⟩, rfl⟩ := (calculate_ok_iff _ _ _).1 hks
  obtain ⟨-, rfl⟩ := (calculate_ok_iff _ _ _).1 hkn
  simp only [computeBreakdown]
  have hg0 : (0 : ℚ) ≤ t.gross_salary := hs1
  have hb0 : (0 : ℚ) ≤ t.bonus := hb1
  have hp0 : (0 : ℚ) ≤ t.pension_contribution_percent := hp1
  have hq0 : t.pension_contribution_percent ≤ 100 := hq1
  have hG0 : 0 ≤ grossOf t := add_nonneg hg0 hb0
  have hPC0 : 0 ≤ pensionContributionOf t :=
    mul_nonneg hG0 (div_nonneg hp0 (by norm_num))
  have hfac : (0 : ℚ) ≤ 1 - t.pension_contribution_percent / 100 := by
    have : t.pension_contribution_percent / 100 ≤ 1 := by
      rw [div_le_one (by norm_num : (0 : ℚ) < 100)]
      exact hq0
    linarith
  have e1 : taxableGrossOf { t with salary_sacrifice_pension := true } =
      grossOf t - pensionContributionOf t := rfl
  have e2 : taxableGrossOf { t with salary_sacrifice_pension := false } =
      grossOf t := rfl
  have hTG : taxableGrossOf { t with salary_sacrifice_pension := true } ≤
      taxableGrossOf { t with salary_sacrifice_pension := false } := by
    rw [e1, e2]
    linarith
  have hTG0 : 0 ≤ taxableGrossOf { t with salary_sacrifice_pension := true } := by
    rw [e1]
    have key := mul_nonneg hG0 hfac
    unfold pensionContributionOf
    nlinarith [key]
  have hTI : taxableIncomeOf defaultRates { t with salary_sacrifice_pension := true } ≤
      taxableIncomeOf defaultRates { t with salary_sacrifice_pension := false } := by
    unfold taxableIncomeOf
    by_cases hj : t.is_secondary_job
    · simp only [show ({ t with salary_sacrifice_pension := true } :
          TaxInput).is_secondary_job = t.is_secondary_job from rfl,
        show ({ t with salary_sacrifice_pension := false } :
          TaxInput).is_secondary_job = t.is_secondary_job from rfl, hj, if_true]
      exact hTG
    · simp only [show ({ t with salary_sacrifice_pension := true } :
          TaxInput).is_secondary_job = t.is_secondary_job from rfl,
        show ({ t with salary_sacrifice_pension := false } :
          TaxInput).is_secondary_job = t.is_secondary_job from rfl, hj, if_false]
      exact max_le_max le_rfl
        (pa_shift_mono defaultRates (by norm_num [defaultRates]) hTG)
  have hTI0 : 0 ≤ taxableIncomeOf defaultRates
      { t with salary_sacrifice_pension := true } := by
    unfold taxableIncomeOf
    by_cases hj : t.is_secondary_job
    · simp only [show ({ t with salary_sacrifice_pension := true } :
          TaxInput).is_secondary_job = t.is_secondary_job from rfl, hj, if_true]
      exact hTG0
    · simp only [show ({ t with salary_sacrifice_pension := true } :
          TaxInput).is_secondary_job = t.is_secondary_job from rfl, hj, if_false]
      exact le_max_left 0 _
  have hTax : totalIncomeTaxOf defaultRates { t with salary_sacrifice_pension := true } ≤
      totalIncomeTaxOf defaultRates { t with salary_sacrifice_pension := false } := by
    unfold totalIncomeTaxOf
    exact incomeTaxTotal_default_mono hTI0 hTI
  have hNI := calcNI_default_mono hTG
  have hSL : studentLoanOf defaultRates { t with salary_sacrifice_pension := true } ≤
      studentLoanOf defaultRates { t with salary_sacrifice_pension := false } := by
    unfold studentLoanOf
    exact studentLoan_default_mono _ hTG
  have hPG : postgradLoanOf defaultRates { t with salary_sacrifice_pension := true } ≤
      postgradLoanOf defaultRates { t with salary_sacrifice_pension := false } := by
    unfold postgradLoanOf
    by_cases hp : t.has_postgraduate_loan
    · simp only [show ({ t with salary_sacrifice_pension := true } :
          TaxInput).has_postgraduate_loan = t.has_postgraduate_loan from rfl,
        show ({ t with salary_sacrifice_pension := false } :
          TaxInput).has_postgraduate_loan = t.has_postgraduate_loan from rfl, hp, if_true]
      exact postgrad_default_mono hTG
    · simp [hp]
  refine ⟨hTax, hNI, ?_⟩
  have hTD : totalDeductionsOf defaultRates { t with salary_sacrifice_pension := true } ≤
      totalDeductionsOf defaultRates { t with salary_sacrifice_pension := false } := by
    unfold totalDeductionsOf
    have hpen : (if ({ t with salary_sacrifice_pension := true } :
          TaxInput).salary_sacrifice_pension then (0 : ℚ)
        else pensionContributionOf { t with salary_sacrifice_pension := true }) = 0 := rfl
    have hpen2 : (if ({ t with salary_sacrifice_pension := false } :
          TaxInput).salary_sacrifice_pension then (0 : ℚ)
        else pensionContributionOf { t with salary_sacrifice_pension := false }) =
        pensionContributionOf t := rfl
    rw [hpen, hpen2]
    linarith
  have hGeq : grossOf ({ t with salary_sacrifice_pension := false } : TaxInput) =
      grossOf { t with salary_sacrifice_pension := true } := rfl
  rw [hGeq]
  linarith

/-- Witness for C8 at gross 60000 with a 5% contribution. -/
theorem c8_salary_sacrifice_witness :
    (computeBreakdown defaultRates
        { gross_salary := 60000, pension_contribution_percent := 5,
          salary_sacrifice_pension := true }).total_income_tax ≤
      (computeBreakdown defaultRates
        { gross_salary := 60000, pension_contribution_percent := 5,
          salary_sacrifice_pension := false }).total_income_tax ∧
      (computeBreakdown defaultRates
        { gross_salary := 60000, pension_contribution_percent := 5,
          salary_sacrifice_pension := true }).ni_contributions ≤
        (computeBreakdown defaultRates
          { gross_salary := 60000, pension_contribution_percent := 5,
            salary_sacrifice_pension := false }).ni_contributions ∧
      (computeBreakdown defaultRates
        { gross_salary := 60000, pension_contribution_percent := 5,
          salary_sacrifice_pension := false }).net_annual_income ≤
        (computeBreakdown defaultRates
          { gross_salary := 60000, pension_contribution_percent := 5,
            salary_sacrifice_pension := true }).net_annual_income :=
  c8_salary_sacrifice_comparison
    { gross_salary := 60000, pension_contribution_percent := 5 } _ _
    ((calculate_ok_iff _ _ _).2 ⟨by norm_num [ValidInput], rfl⟩)
    ((calculate_ok_iff _ _ _).2 ⟨by norm_num [ValidInput], rfl⟩)

/-- **C6.** For every table and accepted input, `pension_tax_relief` is zero
under salary sacrifice, zero when taxable income does not exceed the
basic-rate boundary, and otherwise 20% of the contribution's portion above
the basic-rate boundary plus a further 5% of its portion above the
higher-rate boundary when taxable income extends past it, each portion being
capped at the contribution amount. -/
theorem c6_pension_relief (r : Rates) (t : TaxInput) (b : TaxBreakdown)
    (h : UKTaxCalculator.calculate r t = Except.ok b) :
    b.pension_tax_relief =
      if t.salary_sacrifice_pension = false ∧ 0 < b.pension_contribution then
        if band0max r < b.taxable_income then
          min b.pension_contribution (b.taxable_income - band0max r) * 0.20 +
            (if band1max r < b.taxable_income then
              min b.pension_contribution (b.taxable_income - band1max r) * 0.05
            else 0)
        else 0
      else 0 := by
  obtain ⟨-, rfl⟩ := (calculate_ok_iff r t b).1 h
  simp only [computeBreakdown]
  unfold pensionTaxReliefOf
  split_ifs <;> ring

/-- Witness for C6 at gross 60000 with a 5% non-sacrificed contribution
under the default table. -/
theorem c6_pension_relief_witness :
    (computeBreakdown defaultRates
        { gross_salary := 60000, pension_contribution_percent := 5 }).pension_tax_relief =
      if ({ gross_salary := 60000, pension_contribution_percent := 5 } :
            TaxInput).salary_sacrifice_pension = false ∧
          0 < (computeBreakdown defaultRates
            { gross_salary := 60000, pension_contribution_percent := 5 }).pension_contribution then
        if band0max defaultRates < (computeBreakdown defaultRates
            { gross_salary := 60000, pension_contribution_percent := 5 }).taxable_income then
          min (computeBreakdown defaultRates
              { gross_salary := 60000, pension_contribution_percent := 5 }).pension_contribution
            ((computeBreakdown defaultRates
                { gross_salary := 60000, pension_contribution_percent := 5 }).taxable_income -
              band0max defaultRates) * 0.20 +
            (if band1max defaultRates < (computeBreakdown defaultRates
                { gross_salary := 60000, pension_contribution_percent := 5 }).taxable_income then
              min (computeBreakdown defaultRates
                  { gross_salary := 60000,
                    pension_contribution_percent := 5 }).pension_contribution
                ((computeBreakdown defaultRates
                    { gross_salary := 60000,
                      pension_contribution_percent := 5 }).taxable_income -
                  band1max defaultRates) * 0.05
            else 0)
        else 0
      else 0 :=
  c6_pension_relief defaultRates
    { gross_salary := 60000, pension_contribution_percent := 5 } _
    ((calculate_ok_iff _ _ _).2 ⟨by norm_num [ValidInput], rfl⟩)
